import Mathlib

/-!
Verification of the nvram_uio repository: a UIO kernel driver for a
battery-backed PCI NVRAM card (src/driver/nvram_uio.c) and a userspace
test program that discovers, maps and exercises its control/status
registers (src/userspace/userspace_access_test.c).

The development shallowly embeds the discovery, mapping, magic-number
validation and LED register protocol logic of both C files.  Machine
bytes are modelled as natural numbers below 256 (assignment to a
`uint8_t` is an explicit `% 256`), the 32-bit intermediate arithmetic of
C integer promotion is modelled with an explicit 32-bit mask where the
source relies on it, and addresses are natural numbers.
-/

/-- Modelled from the spec: the system page size used for mapping
alignment.  `PAGE_SIZE` comes from the kernel headers and
`getpagesize()` in userspace, neither of which is part of the repository
sources; 4096 is the page size of the platforms the spec describes. -/
def PAGE_SIZE : Nat := 4096

/-- All bits of a 32-bit C `int`, used to model the integer promotion in
`led &= ~(0x03 << shift)`: the complement `~x` of a promoted value is
`x ^^^ C_INT_MASK` on the 32-bit representation. -/
def C_INT_MASK : Nat := 2 ^ 32 - 1

/-- Modelled from the spec: the FLIP marker state (`LED_FLIP` in the
umem.h header, which is not part of the repository sources).  The spec
fixes only that it is a distinguished marker outside
{OFF=0, ON=1, FLASH_SLOW=2, FLASH_FAST=3}; the conventional header value
is 255, which fits in the `unsigned char` state argument. -/
def LED_FLIP : Nat := 255

/-- Modelled from the spec: `LED_OFF` from the umem.h header (not in the
repository sources); the spec fixes OFF = 0. -/
def LED_OFF : Nat := 0

/-- Modelled from the spec: `LED_ON` from the umem.h header (not in the
repository sources); the spec fixes ON = 1. -/
def LED_ON : Nat := 1

/-- Modelled from the spec: `LED_FLASH_3_5` (3.5 Hz flash) from the
umem.h header (not in the repository sources); the spec fixes
FLASH_SLOW = 2, and 3.5 Hz is the slower of the two flash rates. -/
def LED_FLASH_3_5 : Nat := 2

/-- Modelled from the spec: `LED_FLASH_7_0` (7.0 Hz flash) from the
umem.h header (not in the repository sources); the spec fixes
FLASH_FAST = 3, and 7.0 Hz is the faster of the two flash rates. -/
def LED_FLASH_7_0 : Nat := 3

/-- Modelled from the spec: `LED_FAULT` from the umem.h header (not in
the repository sources): the even bit shift addressing the fault
indicator, the one indicator exercised by the test program.  The spec
places indicators at even shifts of one byte; the conventional header
value is 4. -/
def LED_FAULT : Nat := 4

/-- Embeds `set_led` (src/userspace/userspace_access_test.c:205-221)
acting on the byte read from the LED control register.  `led` is the
pre-call register byte (`uint8_t`), `shift` and `state` the arguments.
The C body is
`if (state == LED_FLIP) led ^= (1<<shift);
 else { led &= ~(0x03 << shift); led |= (state << shift); }`;
each assignment back to the `uint8_t` variable truncates, hence the
`% 256`, and `~` acts on the 32-bit promoted value, hence `C_INT_MASK`. -/
def set_led (led shift state : Nat) : Nat :=
  if state = LED_FLIP then
    (led ^^^ (1 <<< shift)) % 256
  else
    let cleared := (led &&& (C_INT_MASK ^^^ (3 <<< shift))) % 256
    (cleared ||| (state <<< shift)) % 256

theorem set_led_lt (led shift state : Nat) : set_led led shift state < 256 := by
  unfold set_led
  split
  · exact Nat.mod_lt _ (by norm_num)
  · exact Nat.mod_lt _ (by norm_num)

set_option maxRecDepth 10000 in
set_option maxHeartbeats 1000000 in
theorem set_led_normal_cases : ∀ shift ∈ [0, 2, 4, 6], ∀ led < 256, ∀ state < 4,
    ((set_led led shift state >>> shift) % 4 = state ∧
     ∀ i < 8, i ≠ shift → i ≠ shift + 1 →
       (set_led led shift state).testBit i = led.testBit i) := by decide

set_option maxRecDepth 10000 in
set_option maxHeartbeats 1000000 in
theorem set_led_flip_cases : ∀ shift < 8, ∀ led < 256,
    ((set_led led shift LED_FLIP).testBit shift = !led.testBit shift ∧
     ∀ i < 8, i ≠ shift →
       (set_led led shift LED_FLIP).testBit i = led.testBit i) ∧
    set_led (set_led led shift LED_FLIP) shift LED_FLIP = led := by decide

theorem testBit_high_of_lt_256 (n i : Nat) (hn : n < 256) (hi : 8 ≤ i) :
    n.testBit i = false := by
  apply Nat.testBit_lt_two_pow
  calc n < 256 := hn
  _ = 2 ^ 8 := by norm_num
  _ ≤ 2 ^ i := Nat.pow_le_pow_right (by norm_num) hi

/-- C1: for every LED register byte, every even shift in {0,2,4,6} and
every requested state in {OFF, ON, FLASH_SLOW, FLASH_FAST} (all states
other than the FLIP marker), after `set_led` the two bits of the
register at positions [shift+1:shift] equal the requested state and
every other bit of the byte is unchanged from its pre-call value. -/
theorem set_led_sets_two_bit_field (led shift state : Nat)
    (hled : led < 256) (hshift : shift ∈ [0, 2, 4, 6]) (hstate : state < 4) :
    (set_led led shift state >>> shift) % 4 = state ∧
    ∀ i, i ≠ shift → i ≠ shift + 1 →
      (set_led led shift state).testBit i = led.testBit i := by
  obtain ⟨h1, h2⟩ := set_led_normal_cases shift hshift led hled state hstate
  refine ⟨h1, fun i hi hi1 => ?_⟩
  by_cases hlt : i < 8
  · exact h2 i hlt hi hi1
  · rw [testBit_high_of_lt_256 _ i (set_led_lt led shift state) (by omega),
        testBit_high_of_lt_256 _ i hled (by omega)]

theorem set_led_sets_two_bit_field_witness :
    (set_led 181 2 3 >>> 2) % 4 = 3 ∧
    (set_led 181 2 3).testBit 5 = (181 : Nat).testBit 5 :=
  ⟨(set_led_sets_two_bit_field 181 2 3 (by decide) (by decide) (by decide)).1,
   (set_led_sets_two_bit_field 181 2 3 (by decide) (by decide) (by decide)).2
     5 (by decide) (by decide)⟩

/-- C2: for every LED register byte and every shift addressing a bit of
the byte, `set_led` with the FLIP marker toggles exactly the single bit
at position `shift`, leaves bit `shift+1` and every other bit unchanged,
and applying FLIP twice at the same shift restores the original register
byte (FLIP is an involution). -/
theorem set_led_flip_toggles_one_bit (led shift : Nat)
    (hled : led < 256) (hshift : shift < 8) :
    (set_led led shift LED_FLIP).testBit shift = !led.testBit shift ∧
    (set_led led shift LED_FLIP).testBit (shift + 1) = led.testBit (shift + 1) ∧
    (∀ i, i ≠ shift →
      (set_led led shift LED_FLIP).testBit i = led.testBit i) ∧
    set_led (set_led led shift LED_FLIP) shift LED_FLIP = led := by
  obtain ⟨⟨h1, h2⟩, h3⟩ := set_led_flip_cases shift hshift led hled
  have hother : ∀ i, i ≠ shift →
      (set_led led shift LED_FLIP).testBit i = led.testBit i := by
    intro i hi
    by_cases hlt : i < 8
    · exact h2 i hlt hi
    · rw [testBit_high_of_lt_256 _ i (set_led_lt led shift LED_FLIP) (by omega),
          testBit_high_of_lt_256 _ i hled (by omega)]
  exact ⟨h1, hother (shift + 1) (by omega), hother, h3⟩

theorem set_led_flip_toggles_one_bit_witness :
    (set_led 181 4 LED_FLIP).testBit 4 = !(181 : Nat).testBit 4 ∧
    (set_led 181 4 LED_FLIP).testBit 5 = (181 : Nat).testBit 5 ∧
    set_led (set_led 181 4 LED_FLIP) 4 LED_FLIP = 181 :=
  ⟨(set_led_flip_toggles_one_bit 181 4 (by decide) (by decide)).1,
   (set_led_flip_toggles_one_bit 181 4 (by decide) (by decide)).2.1,
   (set_led_flip_toggles_one_bit 181 4 (by decide) (by decide)).2.2.2⟩

/-- Modelled from the spec: `MAGIC_NUMBERS_PER_DEV` from the umem.h
header (not in the repository sources): the loop bound of the magic
number scan in the probe.  The spec's candidate tables hold at most two
acceptable values plus the sentinel, so the bound is 3 (the declared
array has one extra slot). -/
def MAGIC_NUMBERS_PER_DEV : Nat := 3

/-- Embeds the `switch (dev->device)` table selection of
`nvram_uio_pci_probe` (src/driver/nvram_uio.c:85-105): the ordered
candidate list of acceptable magic bytes for each PCI device identifier,
terminated by the sentinel 0x100. -/
def magic_numbers_for (device : Nat) : List Nat :=
  if device = 0x5415 then [0x59, 0x100]
  else if device = 0x5425 then [0x5C, 0x5E, 0x100]
  else if device = 0x6155 then [0x99, 0x100]
  else [0x100]

/-- Embeds the scanning loop of `nvram_uio_pci_probe`
(src/driver/nvram_uio.c:108-114): up to `fuel = MAGIC_NUMBERS_PER_DEV`
candidates are examined in order; a candidate equal to the observed
magic byte accepts, a candidate `>= 0x100` (the sentinel) stops the scan
without accepting, and running out of iterations rejects.  (The C array
cells beyond the initialized candidates are never reached because every
selected list ends in the sentinel within the loop bound.) -/
def magic_scan : Nat → List Nat → Nat → Bool
  | 0, _, _ => false
  | Nat.succ _, [], _ => false
  | Nat.succ fuel, c :: rest, magic =>
    if c = magic then true
    else if 0x100 ≤ c then false
    else magic_scan fuel rest magic

/-- The probe's magic-number acceptance decision for a device identifier
and the byte observed at the magic register (src/driver/nvram_uio.c:107-114). -/
def nvram_uio_magic_check (device magic : Nat) : Bool :=
  magic_scan MAGIC_NUMBERS_PER_DEV (magic_numbers_for device) magic

/-- The attach-time outcome of the magic validation inside
`nvram_uio_pci_probe` (src/driver/nvram_uio.c:115-119, 135-143): a
rejected magic number takes the `out_release` error path and the probe
returns -ENODEV (-19), refusing the device once, at attach time. -/
def nvram_uio_probe_validate (device magic : Nat) : Except Int Unit :=
  if nvram_uio_magic_check device magic then Except.ok () else Except.error (-19)

set_option maxRecDepth 4000 in
/-- C3: the validator accepts an observed magic byte iff some candidate
strictly before the first sentinel (value >= 0x100) in the selected
ordered list equals the byte; the sentinel is never accepted for an
observed byte and an exhausted list rejects.  In particular for variant
0x5425 with list [0x5C, 0x5E, 0x100], byte 0x5E is accepted and byte
0x5D is rejected. -/
theorem magic_check_accepts_iff_before_sentinel (device magic : Nat)
    (hm : magic < 256) :
    (nvram_uio_magic_check device magic = true ↔
      magic ∈ (magic_numbers_for device).takeWhile (fun c => decide (c < 0x100))) ∧
    nvram_uio_magic_check 0x5425 0x5E = true ∧
    nvram_uio_magic_check 0x5425 0x5D = false := by
  refine ⟨?_, by decide, by decide⟩
  by_cases h1 : device = 0x5415
  · subst h1; revert hm; revert magic; decide
  by_cases h2 : device = 0x5425
  · subst h2; revert hm; revert magic; decide
  by_cases h3 : device = 0x6155
  · subst h3; revert hm; revert magic; decide
  have hne : ¬((0x100 : Nat) = magic) := by omega
  simp only [nvram_uio_magic_check, magic_numbers_for, if_neg h1, if_neg h2,
    if_neg h3, MAGIC_NUMBERS_PER_DEV, magic_scan, if_neg hne, le_refl,
    if_pos, List.takeWhile]
  simp

theorem magic_check_accepts_iff_before_sentinel_witness :
    nvram_uio_magic_check 0x5425 0x5E = true ∧
    nvram_uio_magic_check 0x5425 0x5D = false :=
  ⟨(magic_check_accepts_iff_before_sentinel 0x5425 0x5E (by decide)).2.1,
   (magic_check_accepts_iff_before_sentinel 0x5425 0x5D (by decide)).2.2⟩

/-- C8: for every variant identifier outside {0x5415, 0x5425, 0x6155}
the selected candidate list is the sentinel-only list, no observed magic
byte (0..255) is ever accepted, and the attach attempt is rejected at
attach time with -ENODEV. -/
theorem unrecognized_variant_never_accepts (device magic : Nat)
    (h1 : device ≠ 0x5415) (h2 : device ≠ 0x5425) (h3 : device ≠ 0x6155)
    (hm : magic < 256) :
    magic_numbers_for device = [0x100] ∧
    nvram_uio_magic_check device magic = false ∧
    nvram_uio_probe_validate device magic = Except.error (-19) := by
  have htab : magic_numbers_for device = [0x100] := by
    simp only [magic_numbers_for, if_neg h1, if_neg h2, if_neg h3]
  have hne : ¬((0x100 : Nat) = magic) := by omega
  have hf : nvram_uio_magic_check device magic = false := by
    simp only [nvram_uio_magic_check, htab, MAGIC_NUMBERS_PER_DEV, magic_scan,
      if_neg hne, le_refl, if_pos]
  exact ⟨htab, hf, by simp [nvram_uio_probe_validate, hf]⟩

theorem unrecognized_variant_never_accepts_witness :
    magic_numbers_for 0x9999 = [0x100] ∧
    nvram_uio_magic_check 0x9999 0x5C = false ∧
    nvram_uio_probe_validate 0x9999 0x5C = Except.error (-19) :=
  unrecognized_variant_never_accepts 0x9999 0x5C (by decide) (by decide)
    (by decide) (by decide)

/-- The modulus of the C `unsigned long` (64-bit) arithmetic used by the
probe's length computation. -/
def U64_MOD : Nat := 2 ^ 64

/-- Embeds the page alignment of the mapped length in
`nvram_uio_pci_probe` (src/driver/nvram_uio.c:69):
`csr_len = ((csr_len + PAGE_SIZE - 1) / PAGE_SIZE) * PAGE_SIZE;`
computed on `unsigned long` values, hence the explicit 64-bit wraps. -/
def page_align_len (csr_len : Nat) : Nat :=
  (csr_len + PAGE_SIZE - 1) % U64_MOD / PAGE_SIZE * PAGE_SIZE % U64_MOD

/-- One published register window of the UIO device: the
`struct uio_mem` fields the probe fills in (base address and size). -/
structure uio_mem where
  addr : Nat
  size : Nat

/-- Embeds the filling of `info->mem[CSR_MAPPING_INDEX]` by the probe
(src/driver/nvram_uio.c:71-80): the window records the raw physical base
and the page-aligned length as its published size. -/
def probe_csr_mem (csr_base csr_len : Nat) : uio_mem :=
  { addr := csr_base, size := page_align_len csr_len }

/-- C9 counterexample: at the raw length 2^64 - 1 (representable in the
`unsigned long` the probe computes with) the 64-bit addition wraps, the
recorded window size is 0, and it is not at least the raw length, so the
claim does not hold for every raw register-region length. -/
theorem page_align_len_overflow_counterexample :
    page_align_len (2 ^ 64 - 1) = 0 ∧
    ¬(2 ^ 64 - 1 ≤ page_align_len (2 ^ 64 - 1)) := by decide

/-- C9 (amended): for every raw register-region length at most
2^64 - PAGE_SIZE (so the 64-bit rounding arithmetic cannot wrap), the
length used for the attached register window is the raw length rounded
up to the smallest multiple of the page size that is at least the raw
length (equal to the raw length when it is already a whole number of
pages), and this rounded length is what the window records as its
published size. -/
theorem page_align_len_rounds_up (csr_base csr_len : Nat)
    (h : csr_len ≤ 2 ^ 64 - PAGE_SIZE) :
    (probe_csr_mem csr_base csr_len).size = page_align_len csr_len ∧
    PAGE_SIZE ∣ page_align_len csr_len ∧
    csr_len ≤ page_align_len csr_len ∧
    page_align_len csr_len < csr_len + PAGE_SIZE ∧
    (csr_len % PAGE_SIZE = 0 → page_align_len csr_len = csr_len) ∧
    ∀ m, PAGE_SIZE ∣ m → csr_len ≤ m → page_align_len csr_len ≤ m := by
  have h1 : csr_len + PAGE_SIZE - 1 < U64_MOD := by
    simp only [PAGE_SIZE, U64_MOD] at h ⊢; omega
  have h2 : (csr_len + PAGE_SIZE - 1) % U64_MOD / PAGE_SIZE * PAGE_SIZE < U64_MOD := by
    rw [Nat.mod_eq_of_lt h1]
    exact lt_of_le_of_lt (Nat.div_mul_le_self _ _) h1
  have hw : page_align_len csr_len =
      (csr_len + PAGE_SIZE - 1) / PAGE_SIZE * PAGE_SIZE := by
    unfold page_align_len
    rw [Nat.mod_eq_of_lt h2, Nat.mod_eq_of_lt h1]
  refine ⟨rfl, ?_, ?_, ?_, ?_, ?_⟩
  · rw [hw]
    exact dvd_mul_left PAGE_SIZE _
  · rw [hw]; simp only [PAGE_SIZE]; omega
  · rw [hw]; simp only [PAGE_SIZE]; omega
  · intro hmod
    rw [hw]; simp only [PAGE_SIZE] at hmod ⊢; omega
  · intro m hdvd hle
    obtain ⟨k, hk⟩ := hdvd
    subst hk
    rw [hw]; simp only [PAGE_SIZE] at hle ⊢; omega

theorem page_align_len_rounds_up_witness :
    page_align_len 5000 = 8192 ∧
    5000 ≤ page_align_len 5000 ∧
    page_align_len 8192 = 8192 :=
  ⟨by decide, (page_align_len_rounds_up 0 5000 (by decide)).2.2.1,
   (page_align_len_rounds_up 0 8192 (by decide)).2.2.2.2.1 (by decide)⟩

/-- Modelled from the spec: `CSR_MAPPING_INDEX` from the umem.h header
(not in the repository sources): the index of the csr register window
among the mappings the driver publishes.  The driver code uses it
interchangeably with the literal 0 (src/driver/nvram_uio.c:71,107,136),
so its value is 0. -/
def CSR_MAPPING_INDEX : Nat := 0

/-- Modelled from the spec: `MEMCTRLSTATUS_MAGIC` from the umem.h header
(not in the repository sources): the fixed byte offset of the magic-code
register from the CSR base.  The spec fixes the five registers only as
single bytes at fixed offsets; the conventional header values are the
consecutive bytes 0..4, with the magic register at 0. -/
def MEMCTRLSTATUS_MAGIC : Nat := 0

/-- Modelled from the spec: `MEMCTRLSTATUS_MEMORY` from the umem.h
header (not in the repository sources): the byte offset of the
memory-health status register, conventionally 1. -/
def MEMCTRLSTATUS_MEMORY : Nat := 1

/-- Modelled from the spec: `MEMCTRLSTATUS_BATTERY` from the umem.h
header (not in the repository sources): the byte offset of the
battery-health status register, conventionally 2. -/
def MEMCTRLSTATUS_BATTERY : Nat := 2

/-- Modelled from the spec: `MEMCTRLCMD_LEDCTRL` from the umem.h header
(not in the repository sources): the byte offset of the LED command
register, conventionally 3. -/
def MEMCTRLCMD_LEDCTRL : Nat := 3

/-- Modelled from the spec: `MEMCTRLCMD_ERRCTRL` from the umem.h header
(not in the repository sources): the byte offset of the error-control
command register, conventionally 4. -/
def MEMCTRLCMD_ERRCTRL : Nat := 4

/-- The context of the NVRAM UIO device
(src/userspace/userspace_access_test.c:27-45), with pointers modelled as
addresses (natural numbers). -/
structure nvram_uio_context where
  device_name : String
  csr_mmap_offset : Nat
  csr_mmap_size : Nat
  csr : Nat
  memctrlstatus_magic : Nat
  memctrlstatus_memory : Nat
  memctrlstatus_battery : Nat
  memctrlcmd_ledctrl : Nat
  memctrlcmd_errctrl : Nat

/-- Embeds the successful path of `open_uio_device`
(src/userspace/userspace_access_test.c:150-178): after `open` and `mmap`
succeed with `mmap_base` as the mapped window base, the code adds the
published sub-page offset to obtain the effective CSR base
(`context->csr += context->csr_mmap_offset`) and derives the five
register accessor addresses at their fixed byte offsets from it. -/
def open_uio_device (device_name : String)
    (csr_mmap_offset csr_mmap_size mmap_base : Nat) : nvram_uio_context :=
  let csr := mmap_base + csr_mmap_offset
  { device_name := device_name
    csr_mmap_offset := csr_mmap_offset
    csr_mmap_size := csr_mmap_size
    csr := csr
    memctrlstatus_magic := csr + MEMCTRLSTATUS_MAGIC
    memctrlstatus_memory := csr + MEMCTRLSTATUS_MEMORY
    memctrlstatus_battery := csr + MEMCTRLSTATUS_BATTERY
    memctrlcmd_ledctrl := csr + MEMCTRLCMD_LEDCTRL
    memctrlcmd_errctrl := csr + MEMCTRLCMD_ERRCTRL }

/-- A byte read through a mapped register pointer: the byte the hardware
holds at that address (`volatile uint8_t` access). -/
def readb (mem : Nat → Nat) (addr : Nat) : Nat := mem addr % 256

/-- C4: for every device context produced by a successful open-and-map
sequence, the effective CSR base equals the mapped window base plus the
published sub-page offset, each of the five register accessors points at
the CSR base plus its fixed byte offset, and reading a named register
through its accessor yields the same byte as reading the corresponding
raw offset directly from the mapped window. -/
theorem open_uio_device_accessor_invariant (name : String)
    (off size base : Nat) (mem : Nat → Nat) :
    (open_uio_device name off size base).csr = base + off ∧
    (open_uio_device name off size base).memctrlstatus_magic =
      (open_uio_device name off size base).csr + MEMCTRLSTATUS_MAGIC ∧
    (open_uio_device name off size base).memctrlstatus_memory =
      (open_uio_device name off size base).csr + MEMCTRLSTATUS_MEMORY ∧
    (open_uio_device name off size base).memctrlstatus_battery =
      (open_uio_device name off size base).csr + MEMCTRLSTATUS_BATTERY ∧
    (open_uio_device name off size base).memctrlcmd_ledctrl =
      (open_uio_device name off size base).csr + MEMCTRLCMD_LEDCTRL ∧
    (open_uio_device name off size base).memctrlcmd_errctrl =
      (open_uio_device name off size base).csr + MEMCTRLCMD_ERRCTRL ∧
    readb mem (open_uio_device name off size base).memctrlstatus_magic =
      readb mem (base + (off + MEMCTRLSTATUS_MAGIC)) ∧
    readb mem (open_uio_device name off size base).memctrlstatus_memory =
      readb mem (base + (off + MEMCTRLSTATUS_MEMORY)) ∧
    readb mem (open_uio_device name off size base).memctrlstatus_battery =
      readb mem (base + (off + MEMCTRLSTATUS_BATTERY)) ∧
    readb mem (open_uio_device name off size base).memctrlcmd_ledctrl =
      readb mem (base + (off + MEMCTRLCMD_LEDCTRL)) ∧
    readb mem (open_uio_device name off size base).memctrlcmd_errctrl =
      readb mem (base + (off + MEMCTRLCMD_ERRCTRL)) := by
  simp [open_uio_device, readb, Nat.add_assoc]

/-- The live memory-mapping and file-handle state of the test process:
the csr mapping created by `mmap` (its base address and length), and
whether the device file descriptor is still open. -/
structure MmapState where
  mapping : Option (Nat × Nat)
  fd_open : Bool
deriving DecidableEq

/-- Modelled from the spec: the contract of the mapping mechanism, an
external collaborator (POSIX `munmap`): the call fails (EINVAL) when the
address is not a multiple of the page size, releases the live mapping
when the call names the mapping that was created (its base address and
length), and fails otherwise; `none` is the failing return. -/
def munmap_model (st : MmapState) (addr len : Nat) : Option MmapState :=
  if addr % PAGE_SIZE ≠ 0 then none
  else
    match st.mapping with
    | some (mbase, mlen) =>
        if addr = mbase ∧ len = mlen then some { st with mapping := none }
        else none
    | none => none

/-- Embeds `close_uio_device` (src/userspace/userspace_access_test.c:184-197):
`munmap (context->csr, context->csr_mmap_size)` — note the first
argument is the offset-adjusted `csr` pointer, not the address `mmap`
returned — then, only when the unmap did not fail, `close (device_fd)`.
`none` models the fatal `exit (EXIT_FAILURE)` path taken when `munmap`
fails. -/
def close_uio_device (st : MmapState) (ctx : nvram_uio_context) :
    Option MmapState :=
  match munmap_model st ctx.csr ctx.csr_mmap_size with
  | none => none
  | some st1 => some { st1 with fd_open := false }

/-- C5: evaluation of the teardown at a context opened with a nonzero
published sub-page offset (offset 16, size 4096, page-aligned mapped
base 4096).  The unmap call targets the offset-adjusted CSR base, which
is not the address of the mapping that was created and is not
page-aligned, so the teardown takes the fatal unmap-failure path; with
offset 0 the same teardown succeeds, releasing the mapping and then
closing the file handle. -/
theorem close_uio_device_nonzero_offset_takes_fatal_path :
    (open_uio_device "uio0" 16 4096 4096).csr ≠ 4096 ∧
    close_uio_device ⟨some (4096, 4096), true⟩
      (open_uio_device "uio0" 16 4096 4096) = none ∧
    close_uio_device ⟨some (4096, 4096), true⟩
      (open_uio_device "uio0" 0 4096 4096) = some ⟨none, false⟩ := by
  refine ⟨by decide, ?_, ?_⟩ <;>
    simp [close_uio_device, munmap_model, open_uio_device, PAGE_SIZE]

/-- Modelled from the spec: `DRIVER_NAME` from the umem.h header (not in
the repository sources): the identity string the driver publishes
(`info->name = DRIVER_NAME`, src/driver/nvram_uio.c:120) and the locator
matches against; the spec's end-to-end scenario fixes it as
"nvram_uio". -/
def DRIVER_NAME : String := "nvram_uio"

/-- One entry under the registry root /sys/class/uio as `readdir`
presents it: its name and whether its `d_type` is DT_DIR or DT_LNK. -/
structure DirEntry where
  d_name : String
  is_dir_or_lnk : Bool
deriving DecidableEq

/-- The observable registry the locator scans: the enumeration order of
the entries under /sys/class/uio, and for each entry name the outcome of
opening and reading its `name` attribute file: `none` when `fopen`
fails, `some none` when the file opens but `fgets` reads no line (empty
file), and `some (some line)` when `fgets` returns a line (trailing
newline included when present). -/
structure Registry where
  entries : List DirEntry
  nameFile : String → Option (Option String)

/-- Embeds the newline trim of `find_uio_device`
(src/userspace/userspace_access_test.c:80-83): when the last character
of the line read is a newline it is removed. -/
def trim_trailing_newline (s : String) : String :=
  if s.data.getLast? = some '\n' then String.mk s.data.dropLast else s

/-- Embeds the scanning loop of `find_uio_device`
(src/userspace/userspace_access_test.c:68-95): entries are taken in
enumeration order; an entry is examined only when it is directory-like;
its `name` attribute file must open and yield a line; the line, trimmed
of a trailing newline, must equal DRIVER_NAME; the first entry passing
all of this is recorded and the scan stops.  Every failure along the
way just moves to the next entry. -/
def find_uio_scan (reg : Registry) : List DirEntry → Option String
  | [] => none
  | e :: rest =>
    if e.is_dir_or_lnk then
      match reg.nameFile e.d_name with
      | some (some line) =>
          if trim_trailing_newline line = DRIVER_NAME then some e.d_name
          else find_uio_scan reg rest
      | some none => find_uio_scan reg rest
      | none => find_uio_scan reg rest
    else find_uio_scan reg rest

/-- Embeds `find_uio_device` (src/userspace/userspace_access_test.c:51-103):
when the registry root cannot be opened (`opendir` fails), or the scan
finds no matching entry, the function prints a diagnostic and exits with
failure (`none`); otherwise it records the matched entry's name. -/
def find_uio_device (root_ok : Bool) (reg : Registry) : Option String :=
  if root_ok then find_uio_scan reg reg.entries else none

/-- An entry the locator's scan accepts: directory-like, with a `name`
attribute that opens and yields a line whose newline-trimmed content
equals DRIVER_NAME. -/
def entry_matches (reg : Registry) (e : DirEntry) : Bool :=
  e.is_dir_or_lnk &&
    match reg.nameFile e.d_name with
    | some (some line) => decide (trim_trailing_newline line = DRIVER_NAME)
    | some none => false
    | none => false

theorem find_uio_scan_eq_find (reg : Registry) (l : List DirEntry) :
    find_uio_scan reg l = (l.find? (entry_matches reg)).map DirEntry.d_name := by
  induction l with
  | nil => rfl
  | cons e rest ih =>
    rw [find_uio_scan, List.find?]
    cases hd : e.is_dir_or_lnk with
    | false => simp [entry_matches, hd, ih]
    | true =>
      cases hnf : reg.nameFile e.d_name with
      | none => simp [entry_matches, hd, hnf, ih]
      | some o =>
        cases o with
        | none => simp [entry_matches, hd, hnf, ih]
        | some line =>
          by_cases ht : trim_trailing_newline line = DRIVER_NAME
          · simp [entry_matches, hd, hnf, ht]
          · simp [entry_matches, hd, hnf, ht, ih]

/-- C6: the locator returns the name of the first-enumerated entry whose
identity attribute, trimmed of a trailing newline, equals the target
identity string and stops the scan there (`List.find?` of the match
predicate); when no entry matches, or the registry root is not
accessible, it returns no entry (the fatal DiscoveryError exit). -/
theorem find_uio_device_returns_first_match (root_ok : Bool) (reg : Registry) :
    find_uio_device root_ok reg =
      if root_ok then (reg.entries.find? (entry_matches reg)).map DirEntry.d_name
      else none := by
  unfold find_uio_device
  cases root_ok with
  | false => rfl
  | true => simp [find_uio_scan_eq_find]

/-- C10: during the locator's scan, a directory-like entry whose
identity attribute file cannot be opened, or from which no line can be
read, is silently skipped — scanning it followed by the remaining
entries gives the same outcome as scanning the remaining entries alone —
such an entry never satisfies the match predicate (so it is never the
located device), and the no-match outcome can only arise once the whole
enumeration is exhausted (the empty remainder scans to `none`). -/
theorem unreadable_entry_is_skipped (reg : Registry) (e : DirEntry)
    (rest : List DirEntry)
    (h : reg.nameFile e.d_name = none ∨ reg.nameFile e.d_name = some none) :
    find_uio_scan reg (e :: rest) = find_uio_scan reg rest ∧
    entry_matches reg e = false ∧
    find_uio_scan reg [] = none := by
  refine ⟨?_, ?_, rfl⟩ <;>
    rcases h with h | h <;>
      cases hd : e.is_dir_or_lnk <;>
        simp [find_uio_scan, entry_matches, hd, h]

/-- A registry with a directory-like entry whose name attribute cannot
be read, followed by the entry of the nvram_uio device. -/
def sample_registry : Registry :=
  { entries := [⟨"uio_broken", true⟩, ⟨"uio0", true⟩]
    nameFile := fun n => if n = "uio0" then some (some "nvram_uio\n") else none }

theorem unreadable_entry_is_skipped_witness :
    find_uio_scan sample_registry [⟨"uio_broken", true⟩, ⟨"uio0", true⟩] =
      find_uio_scan sample_registry [⟨"uio0", true⟩] ∧
    entry_matches sample_registry ⟨"uio_broken", true⟩ = false :=
  ⟨(unreadable_entry_is_skipped sample_registry ⟨"uio_broken", true⟩
      [⟨"uio0", true⟩] (Or.inl (by decide))).1,
   (unreadable_entry_is_skipped sample_registry ⟨"uio_broken", true⟩
      [⟨"uio0", true⟩] (Or.inl (by decide))).2.1⟩

/-- A byte store through a mapped register pointer: the hardware byte at
`addr` becomes `val` truncated to a byte. -/
def write_mem (mem : Nat → Nat) (addr val : Nat) : Nat → Nat :=
  fun a => if a = addr then val % 256 else mem a

/-- An observable step of the test program: a diagnostic line, one of
the five register-value prints (register name and the byte printed), or
one `set_led` call (its shift and requested-state arguments and the byte
written back to the LED register). -/
inductive MainEvent where
  | diag (msg : String)
  | printedReg (reg : String) (value : Nat)
  | ledSet (shift state written : Nat)
deriving DecidableEq

/-- The environment `main` runs against: whether the registry root
opens, the registry itself, the outcomes of the two mapping-parameter
reads (`none` is the fatal ParamReadError exit inside
`read_uio_mapping_param`), whether `open` on the device file succeeds,
the window base `mmap` returns (`none` is MAP_FAILED), and the byte the
hardware holds at each address. -/
structure MainEnv where
  root_ok : Bool
  registry : Registry
  offset_param : Option Nat
  size_param : Option Nat
  open_ok : Bool
  mmap_base : Option Nat
  mem : Nat → Nat

/-- The observable trace of the success path of `main`
(src/userspace/userspace_access_test.c:230-238): the five register
prints, then the four `set_led` calls in program order — ON, then
LED_FLASH_7_0, then LED_FLASH_3_5, then OFF on the fault indicator —
each one a read-modify-write of the LED control register. -/
def main_success_trace (mem : Nat → Nat) (ctx : nvram_uio_context) :
    List MainEvent :=
  let l1 := set_led (readb mem ctx.memctrlcmd_ledctrl) LED_FAULT LED_ON
  let m1 := write_mem mem ctx.memctrlcmd_ledctrl l1
  let l2 := set_led (readb m1 ctx.memctrlcmd_ledctrl) LED_FAULT LED_FLASH_7_0
  let m2 := write_mem m1 ctx.memctrlcmd_ledctrl l2
  let l3 := set_led (readb m2 ctx.memctrlcmd_ledctrl) LED_FAULT LED_FLASH_3_5
  let m3 := write_mem m2 ctx.memctrlcmd_ledctrl l3
  let l4 := set_led (readb m3 ctx.memctrlcmd_ledctrl) LED_FAULT LED_OFF
  [MainEvent.printedReg "memctrlstatus_magic" (readb mem ctx.memctrlstatus_magic),
   MainEvent.printedReg "memctrlstatus_memory" (readb mem ctx.memctrlstatus_memory),
   MainEvent.printedReg "memctrlstatus_battery" (readb mem ctx.memctrlstatus_battery),
   MainEvent.printedReg "memctrlcmd_ledctrl" (readb mem ctx.memctrlcmd_ledctrl),
   MainEvent.printedReg "memctrlcmd_errctrl" (readb mem ctx.memctrlcmd_errctrl),
   MainEvent.ledSet LED_FAULT LED_ON l1,
   MainEvent.ledSet LED_FAULT LED_FLASH_7_0 l2,
   MainEvent.ledSet LED_FAULT LED_FLASH_3_5 l3,
   MainEvent.ledSet LED_FAULT LED_OFF l4]

/-- Embeds `main` (src/userspace/userspace_access_test.c:223-242) as a
function from the environment to the process exit status (0 =
EXIT_SUCCESS, 1 = EXIT_FAILURE) and the events observed, in order:
`find_uio_device`, `get_uio_device_parameters` (two parameter reads),
`open_uio_device` (open, then mmap, then the accessor derivation), the
five register prints, the four `set_led` calls, and `close_uio_device`.
Each failing step prints its diagnostic and the process terminates
immediately with a non-zero status. -/
def main_run (env : MainEnv) : Nat × List MainEvent :=
  match find_uio_device env.root_ok env.registry with
  | none => (1, [MainEvent.diag "Failed to find entry for nvram_uio under /sys/class/uio"])
  | some dev_name =>
    match env.offset_param with
    | none => (1, [MainEvent.diag "Failed to read value from the offset map file"])
    | some off =>
      match env.size_param with
      | none => (1, [MainEvent.diag "Failed to read value from the size map file"])
      | some size =>
        if env.open_ok then
          match env.mmap_base with
          | none => (1, [MainEvent.diag "Failed to map csr registers"])
          | some base =>
            let ctx := open_uio_device dev_name off size base
            match close_uio_device ⟨some (base, size), true⟩ ctx with
            | none => (1, main_success_trace env.mem ctx ++
                          [MainEvent.diag "Failed to munmap"])
            | some _ => (0, main_success_trace env.mem ctx)
        else (1, [MainEvent.diag "Failed to open the device file"])

/-- The `set_led` calls in a trace: each call's shift and
requested-state arguments, in order. -/
def led_calls (trace : List MainEvent) : List (Nat × Nat) :=
  trace.filterMap fun ev =>
    match ev with
    | MainEvent.ledSet shift state _ => some (shift, state)
    | _ => none

/-- An environment in which every step of `main` succeeds: the sample
registry, published offset 0 and size 4096, a page-aligned mapped base,
and hardware bytes all zero. -/
def sample_env : MainEnv :=
  { root_ok := true
    registry := sample_registry
    offset_param := some 0
    size_param := some 4096
    open_ok := true
    mmap_base := some 4096
    mem := fun _ => 0 }

/-- C7 counterexample: at a concrete environment where every step
succeeds, the process exits with status 0 but the four LED transitions
are, in program order, ON, FLASH_FAST (`LED_FLASH_7_0` = 3), FLASH_SLOW
(`LED_FLASH_3_5` = 2), OFF — not the claimed order ON, FLASH_SLOW,
FLASH_FAST, OFF. -/
theorem main_led_order_counterexample :
    (main_run sample_env).1 = 0 ∧
    led_calls (main_run sample_env).2 =
      [(LED_FAULT, LED_ON), (LED_FAULT, LED_FLASH_7_0),
       (LED_FAULT, LED_FLASH_3_5), (LED_FAULT, LED_OFF)] ∧
    led_calls (main_run sample_env).2 ≠
      [(LED_FAULT, LED_ON), (LED_FAULT, LED_FLASH_3_5),
       (LED_FAULT, LED_FLASH_7_0), (LED_FAULT, LED_OFF)] := by decide

/-- C7 (amended): on the success path — discovery, both parameter reads,
open and mapping all succeed, and the teardown's unmap succeeds, which
for this code requires a page-aligned mapped base and a published
sub-page offset of zero — the process prints the five register values
(magic, memory-health, battery-health, LED command, error-control), then
exercises exactly four LED state transitions on the fault indicator in
the order ON, FLASH_FAST, FLASH_SLOW, OFF, and terminates with zero
status; any discovery, parameter-read, open, or mapping failure prints a
diagnostic and terminates immediately with a non-zero status. -/
theorem main_run_success_and_failure_paths (env : MainEnv) :
    (∀ dev_name off size base ctx,
      find_uio_device env.root_ok env.registry = some dev_name →
      env.offset_param = some off →
      env.size_param = some size →
      env.open_ok = true →
      env.mmap_base = some base →
      base % PAGE_SIZE = 0 →
      off = 0 →
      ctx = open_uio_device dev_name off size base →
      main_run env = (0, main_success_trace env.mem ctx) ∧
      led_calls (main_success_trace env.mem ctx) =
        [(LED_FAULT, LED_ON), (LED_FAULT, LED_FLASH_7_0),
         (LED_FAULT, LED_FLASH_3_5), (LED_FAULT, LED_OFF)] ∧
      (main_success_trace env.mem ctx).take 5 =
        [MainEvent.printedReg "memctrlstatus_magic"
           (readb env.mem ctx.memctrlstatus_magic),
         MainEvent.printedReg "memctrlstatus_memory"
           (readb env.mem ctx.memctrlstatus_memory),
         MainEvent.printedReg "memctrlstatus_battery"
           (readb env.mem ctx.memctrlstatus_battery),
         MainEvent.printedReg "memctrlcmd_ledctrl"
           (readb env.mem ctx.memctrlcmd_ledctrl),
         MainEvent.printedReg "memctrlcmd_errctrl"
           (readb env.mem ctx.memctrlcmd_errctrl)]) ∧
    (find_uio_device env.root_ok env.registry = none →
      main_run env =
        (1, [MainEvent.diag "Failed to find entry for nvram_uio under /sys/class/uio"])) ∧
    (∀ dev_name,
      find_uio_device env.root_ok env.registry = some dev_name →
      env.offset_param = none →
      main_run env =
        (1, [MainEvent.diag "Failed to read value from the offset map file"])) ∧
    (∀ dev_name off,
      find_uio_device env.root_ok env.registry = some dev_name →
      env.offset_param = some off →
      env.size_param = none →
      main_run env =
        (1, [MainEvent.diag "Failed to read value from the size map file"])) ∧
    (∀ dev_name off size,
      find_uio_device env.root_ok env.registry = some dev_name →
      env.offset_param = some off →
      env.size_param = some size →
      env.open_ok = false →
      main_run env = (1, [MainEvent.diag "Failed to open the device file"])) ∧
    (∀ dev_name off size,
      find_uio_device env.root_ok env.registry = some dev_name →
      env.offset_param = some off →
      env.size_param = some size →
      env.open_ok = true →
      env.mmap_base = none →
      main_run env = (1, [MainEvent.diag "Failed to map csr registers"])) := by
  refine ⟨?_, ?_, ?_, ?_, ?_, ?_⟩
  · intro dev_name off size base ctx hfind hoff hsize hopen hbase hal h0 hctx
    subst h0 hctx
    have hclose : close_uio_device ⟨some (base, size), true⟩
        (open_uio_device dev_name 0 size base) = some ⟨none, false⟩ := by
      simp [close_uio_device, munmap_model, open_uio_device, hal]
    refine ⟨?_, ?_, ?_⟩
    · simp [main_run, hfind, hoff, hsize, hopen, hbase, hclose]
    · simp [led_calls, main_success_trace]
    · simp [main_success_trace]
  · intro hfind
    simp [main_run, hfind]
  · intro dev_name hfind hoff
    simp [main_run, hfind, hoff]
  · intro dev_name off hfind hoff hsize
    simp [main_run, hfind, hoff, hsize]
  · intro dev_name off size hfind hoff hsize hopen
    simp [main_run, hfind, hoff, hsize, hopen]
  · intro dev_name off size hfind hoff hsize hopen hbase
    simp [main_run, hfind, hoff, hsize, hopen, hbase]

theorem main_run_success_and_failure_paths_witness :
    main_run sample_env =
      (0, main_success_trace sample_env.mem (open_uio_device "uio0" 0 4096 4096)) ∧
    led_calls (main_success_trace sample_env.mem (open_uio_device "uio0" 0 4096 4096)) =
      [(LED_FAULT, LED_ON), (LED_FAULT, LED_FLASH_7_0),
       (LED_FAULT, LED_FLASH_3_5), (LED_FAULT, LED_OFF)] :=
  ⟨((main_run_success_and_failure_paths sample_env).1 "uio0" 0 4096 4096
      (open_uio_device "uio0" 0 4096 4096) (by decide) rfl rfl rfl rfl
      (by decide) rfl rfl).1,
   ((main_run_success_and_failure_paths sample_env).1 "uio0" 0 4096 4096
      (open_uio_device "uio0" 0 4096 4096) (by decide) rfl rfl rfl rfl
      (by decide) rfl rfl).2.1⟩
